import Mathlib

/-!
Shallow embedding of the WhatsApp gateway service (`src/server/whatsapp.ts`,
class `WhatsAppService`) from the WhatsPhpLink repository.

The service owns a single protocol socket (`sock`), an `isInitialized` flag
and an in-memory `qrCode`, and talks to three external collaborators:

* `storage` — a persisted singleton `Session` record, a keyed `Contact`
  collection and an append-only `Message` log; modelled as fields of
  `ServiceState`.
* the Socket.IO emitter — modelled as an append-only list of `Event`s.
* the Baileys transport — modelled by explicit parameters: whether an
  asynchronous call succeeds, the socket value a connection attempt
  produces, and a list recording every outbound transport send attempt.

JavaScript truthiness (`x || y`, `if (qr)`) and `String.prototype.includes`
are modelled faithfully by the `js*` helpers below.  Each method of the
class becomes a state-passing function returning the new state together
with the thrown error, if any (`Option WError` / `Except WError _`).
-/

/-- JS `a || b` for `a : string | null | undefined`: the empty string is falsy. -/
def jsOr (a : Option String) (b : String) : String :=
  match a with
  | some s => if s = "" then b else s
  | none => b

/-- JS `a || null`: the empty string collapses to `null`. -/
def jsOrNull (a : Option String) : Option String :=
  match a with
  | some s => if s = "" then none else some s
  | none => none

/-- Substring occurrence over char lists, used to model `String.prototype.includes`. -/
def includesCharList (sub : List Char) : List Char → Bool
  | [] => sub.isEmpty
  | c :: rest => sub.isPrefixOf (c :: rest) || includesCharList sub rest

/-- JS `s.includes(sub)`. -/
def jsIncludes (s sub : String) : Bool :=
  includesCharList sub.data s.data

/-- JS `s.split(sep)[0]` for a one-character separator: the text before the
first occurrence of `sep` (the whole string when `sep` does not occur). -/
def jsSplitFirst (s : String) (sep : Char) : String :=
  ⟨s.data.takeWhile (fun c => c ≠ sep)⟩

/-- The persisted singleton session record (`storage.updateSession` /
`storage.getSession`). -/
structure Session where
  phoneNumber : Option String
  isConnected : Bool
  qrCode : Option String
  lastConnected : Option Nat
deriving DecidableEq

/-- A partial session update, as passed to `storage.updateSession`:
`none` means the field is absent from the update object. -/
structure SessionPatch where
  phoneNumber : Option (Option String) := none
  isConnected : Option Bool := none
  qrCode : Option (Option String) := none
  lastConnected : Option (Option Nat) := none
deriving DecidableEq

/-- `storage.updateSession`: merge a partial update into the singleton record. -/
def applyPatch (s : Session) (p : SessionPatch) : Session :=
  { phoneNumber := p.phoneNumber.getD s.phoneNumber
    isConnected := p.isConnected.getD s.isConnected
    qrCode := p.qrCode.getD s.qrCode
    lastConnected := p.lastConnected.getD s.lastConnected }

/-- A persisted contact (`storage.createOrUpdateContact`), keyed by `id`. -/
structure Contact where
  id : String
  name : Option String
  number : String
  pushname : Option String
  isGroup : Bool
deriving DecidableEq

/-- A persisted message (`storage.createMessage`).  `from` and `to` are Lean
keywords, hence the field names `from_` and `to_`.  `timestamp` is in epoch
milliseconds. -/
structure Message where
  chatId : String
  from_ : String
  to_ : String
  body : String
  timestamp : Nat
  isFromMe : Bool
deriving DecidableEq

/-- An event emitted on the Socket.IO server (`this.io?.emit(...)`). -/
inductive Event where
  | qr (code : String)
  | ready
  | disconnected
  | message (chatId from_ body : String)
deriving DecidableEq

/-- Errors thrown by the service methods. -/
inductive WError where
  | sessionEstablishmentFailed
  | notInitialized
  | notConnected
  | sendFailed
  | logoutFailed
deriving DecidableEq

/-- The Baileys socket handle: only its `user.id` identity is observable here. -/
structure Sock where
  user : Option String
deriving DecidableEq

/-- The `connection` field of a Baileys `ConnectionState` update. -/
inductive Conn where
  | close
  | opened
  | connecting
deriving DecidableEq

/-- `DisconnectReason.loggedOut` in Baileys. -/
def DisconnectReason.loggedOut : Nat := 401

/-- A `connection.update` payload: the `connection` string, the Boom status
code reachable through `lastDisconnect?.error?.output?.statusCode`, and the
`qr` string. -/
structure ConnUpdate where
  connection : Option Conn
  lastDisconnectStatus : Option Nat
  qr : Option String
deriving DecidableEq

/-- A raw inbound item of a `messages.upsert` batch, reduced to the fields
`handleIncomingMessages` reads. -/
structure RawMessage where
  hasMessage : Bool
  fromMe : Bool
  remoteJid : Option String
  conversation : Option String
  extendedText : Option String
  pushName : Option String
  messageTimestamp : Nat
deriving DecidableEq

/-- Where, if anywhere, persistence throws while one inbound item is processed. -/
inductive FailSpot where
  | atContact
  | atMessage
deriving DecidableEq

/-- The whole observable state: the service's private fields, the persisted
storage collaborator, the emitted events, the recorded transport send
attempts, and the number of reconnect timers currently scheduled. -/
structure ServiceState where
  sock : Option Sock
  isInitialized : Bool
  qrCode : Option String
  session : Session
  contacts : List Contact
  messages : List Message
  events : List Event
  transportAttempts : List (String × String)
  pendingReconnects : Nat
  connectAttempts : Nat
deriving DecidableEq

/-- `storage.createOrUpdateContact`: upsert keyed by `id`, idempotent. -/
def upsertContact (c : Contact) (cs : List Contact) : List Contact :=
  if cs.any (fun x => x.id == c.id) then
    cs.map (fun x => if x.id == c.id then c else x)
  else cs ++ [c]

/-- `connectToWhatsApp()`: one connection attempt.  `result = some s` means
the transport produced socket `s`; `result = none` means establishment threw
before `this.sock` was assigned.  `connectAttempts` is a ghost counter of
attempts. -/
def connectToWhatsApp (result : Option Sock) (st : ServiceState) :
    ServiceState × Option WError :=
  let st1 := { st with connectAttempts := st.connectAttempts + 1 }
  match result with
  | none => (st1, some WError.sessionEstablishmentFailed)
  | some s => ({ st1 with sock := some s }, none)

/-- `initialize(io)`: no-op when already initialized; otherwise it sets
`isInitialized = true` FIRST and then attempts the connection, rethrowing
any establishment error (the flag is not reset in the catch block). -/
def initializeService (result : Option Sock) (st : ServiceState) :
    ServiceState × Option WError :=
  if st.isInitialized then (st, none)
  else connectToWhatsApp result { st with isInitialized := true }

/-- `this.sock?.user?.id?.split(":")[0] || null` in the `open` branch. -/
def derivePhone (sock : Option Sock) : Option String :=
  match sock with
  | none => none
  | some s =>
    match s.user with
    | none => none
    | some id => jsOrNull (some (jsSplitFirst id ':'))

/-- The session update written on a QR challenge. -/
def qrPatch (q : String) : SessionPatch :=
  { qrCode := some (some q), isConnected := some false }

/-- The session update written on connection close and on `disconnect()`. -/
def closePatch : SessionPatch :=
  { isConnected := some false, phoneNumber := some none, qrCode := some none }

/-- The session update written when the connection opens. -/
def openPatch (phone : Option String) (now : Nat) : SessionPatch :=
  { phoneNumber := some phone, isConnected := some true,
    qrCode := some none, lastConnected := some (some now) }

/-- A chat returned by `groupFetchAllParticipating()`: identifier and subject. -/
structure GroupChat where
  chatId : String
  subject : Option String
deriving DecidableEq

/-- The contact upserted for one fetched chat in `loadContacts`. -/
def chatContact (c : GroupChat) : Contact :=
  { id := c.chatId
    name := jsOrNull c.subject
    number := jsSplitFirst c.chatId '@'
    pushname := jsOrNull c.subject
    isGroup := jsIncludes c.chatId "@g.us" }

/-- `loadContacts()`: returns early with no socket, otherwise upserts one
contact per participating chat (`chats` stands for the transport's answer). -/
def loadContacts (chats : List GroupChat) (st : ServiceState) : ServiceState :=
  match st.sock with
  | none => st
  | some _ =>
    { st with contacts := chats.foldl (fun cs c => upsertContact (chatContact c) cs) st.contacts }

/-- The `if (qr)` block of `handleConnectionUpdate`: store the code, persist
it with `isConnected: false`, emit `qr`.  The empty string is falsy in JS. -/
def qrStep (u : ConnUpdate) (st : ServiceState) : ServiceState :=
  match u.qr with
  | some q =>
    if q = "" then st
    else
      { st with qrCode := some q
                session := applyPatch st.session (qrPatch q)
                events := st.events ++ [Event.qr q] }
  | none => st

/-- The `connection === "close" / "open"` branches of `handleConnectionUpdate`. -/
def connStep (now : Nat) (chats : List GroupChat) (u : ConnUpdate)
    (st : ServiceState) : ServiceState :=
  match u.connection with
  | some Conn.close =>
    if u.lastDisconnectStatus ≠ some DisconnectReason.loggedOut then
      { st with session := applyPatch st.session closePatch
                events := st.events ++ [Event.disconnected]
                pendingReconnects := st.pendingReconnects + 1 }
    else
      { st with session := applyPatch st.session closePatch
                events := st.events ++ [Event.disconnected] }
  | some Conn.opened =>
    loadContacts chats
      { st with qrCode := none
                session := applyPatch st.session (openPatch (derivePhone st.sock) now)
                events := st.events ++ [Event.ready] }
  | _ => st

/-- `handleConnectionUpdate(update)`: the QR block runs first, then the
close/open branches.  `now` is the clock read for `lastConnected`; `chats`
is the transport's answer to the post-open contact sync. -/
def handleConnectionUpdate (now : Nat) (chats : List GroupChat)
    (u : ConnUpdate) (st : ServiceState) : ServiceState :=
  connStep now chats u (qrStep u st)

/-- The expiry of one scheduled reconnect timer: `setTimeout(() =>
this.connectToWhatsApp(), 3000)` fires and runs a fresh connection attempt
(errors inside the callback are unhandled, hence the dropped error). -/
def fireReconnectTimer (result : Option Sock) (st : ServiceState) : ServiceState :=
  if st.pendingReconnects = 0 then st
  else (connectToWhatsApp result { st with pendingReconnects := st.pendingReconnects - 1 }).1

/-- The destination normalization inside `sendMessage`: keep `to` when it
already contains `"@"`, else append the default one-to-one domain suffix. -/
def normalizeChatId (to_ : String) : String :=
  if jsIncludes to_ "@" then to_ else to_ ++ "@s.whatsapp.net"

/-- `sendMessage(to, message)`.  Throws before any side effect when no socket
exists or the persisted session is not connected.  Inside the try block:
the transport send attempt is recorded in `transportAttempts` and succeeds
iff `transportOk`; the contact upsert runs when the destination is unknown;
the message persistence succeeds iff `persistOk`.  The catch block wraps any
thrown error and rethrows, so both a transport failure and a persistence
failure surface as `sendFailed`. -/
def sendMessage (transportOk persistOk : Bool) (now : Nat)
    (to_ message : String) (st : ServiceState) :
    ServiceState × Except WError Message :=
  match st.sock with
  | none => (st, Except.error WError.notInitialized)
  | some sock =>
    if st.session.isConnected = false then
      (st, Except.error WError.notConnected)
    else
      let chatId := normalizeChatId to_
      let st1 := { st with transportAttempts := st.transportAttempts ++ [(chatId, message)] }
      if transportOk = false then (st1, Except.error WError.sendFailed)
      else
        let newContact : Contact :=
          { id := chatId, name := none, number := to_,
            pushname := none, isGroup := jsIncludes chatId "@g.us" }
        let st2 :=
          if st1.contacts.any (fun c => c.id == chatId) then st1
          else { st1 with contacts := upsertContact newContact st1.contacts }
        if persistOk = false then (st2, Except.error WError.sendFailed)
        else
          let m : Message :=
            { chatId := chatId
              from_ := jsOr sock.user chatId
              to_ := chatId
              body := message
              timestamp := now
              isFromMe := true }
          ({ st2 with messages := st2.messages ++ [m] }, Except.ok m)

/-- `msg.key.remoteJid || ""` for one inbound item. -/
def ingestChatId (m : RawMessage) : String :=
  jsOr m.remoteJid ""

/-- `msg.message.conversation || msg.message.extendedTextMessage?.text || ""`. -/
def ingestBody (m : RawMessage) : String :=
  jsOr m.conversation (jsOr m.extendedText "")

/-- The contact upserted for one inbound item. -/
def ingestContact (m : RawMessage) : Contact :=
  { id := ingestChatId m
    name := jsOrNull m.pushName
    number := jsSplitFirst (ingestChatId m) '@'
    pushname := jsOrNull m.pushName
    isGroup := jsIncludes (ingestChatId m) "@g.us" }

/-- The message persisted for one inbound item.  `sockUser` is
`this.sock?.user?.id`. -/
def ingestMessage (sockUser : Option String) (m : RawMessage) : Message :=
  { chatId := ingestChatId m
    from_ := ingestChatId m
    to_ := jsOr sockUser ""
    body := ingestBody m
    timestamp := m.messageTimestamp * 1000
    isFromMe := false }

/-- One iteration of the `handleIncomingMessages` loop: skip items without
content and self-originated items; otherwise upsert the contact, append the
message and emit the `message` event, with the whole body wrapped in a
try/catch.  `spot` says where persistence throws for this item, if at all;
a throw keeps the writes made before it and aborts the rest of the item. -/
def processItem (sockUser : Option String) (spot : Option FailSpot)
    (m : RawMessage) (st : ServiceState) : ServiceState :=
  if m.hasMessage = false then st
  else if m.fromMe = true then st
  else
    match spot with
    | some FailSpot.atContact => st
    | some FailSpot.atMessage =>
      { st with contacts := upsertContact (ingestContact m) st.contacts }
    | none =>
      { st with contacts := upsertContact (ingestContact m) st.contacts
                messages := st.messages ++ [ingestMessage sockUser m]
                events := st.events ++
                  [Event.message (ingestChatId m) (ingestChatId m) (ingestBody m)] }

/-- The `handleIncomingMessages` loop from item index `i` on.  `oracle`
assigns to each item index the persistence failure injected there, if any. -/
def ingestFrom (sockUser : Option String) (oracle : Nat → Option FailSpot)
    (i : Nat) (msgs : List RawMessage) (st : ServiceState) : ServiceState :=
  match msgs with
  | [] => st
  | m :: rest => ingestFrom sockUser oracle (i + 1) rest (processItem sockUser (oracle i) m st)

/-- `handleIncomingMessages(messages)`. -/
def handleIncomingMessages (sockUser : Option String)
    (oracle : Nat → Option FailSpot) (msgs : List RawMessage)
    (st : ServiceState) : ServiceState :=
  ingestFrom sockUser oracle 0 msgs st

/-- `disconnect()`: logout when a socket exists, then persist the session as
disconnected and unmark initialization.  The catch block logs and RETHROWS,
so a logout failure skips both follow-up steps. -/
def disconnect (logoutOk : Bool) (st : ServiceState) : ServiceState × Option WError :=
  match st.sock with
  | some _ =>
    if logoutOk then
      let st1 := { st with sock := none }
      ({ st1 with session := applyPatch st1.session closePatch
                  isInitialized := false }, none)
    else (st, some WError.logoutFailed)
  | none =>
    ({ st with session := applyPatch st.session closePatch
               isInitialized := false }, none)

/-! ### Concrete fixtures -/

/-- The persisted session before anything happened. -/
def initialSession : Session :=
  { phoneNumber := none, isConnected := false, qrCode := none, lastConnected := none }

/-- The service state right after construction. -/
def initialState : ServiceState :=
  { sock := none, isInitialized := false, qrCode := none,
    session := initialSession, contacts := [], messages := [], events := [],
    transportAttempts := [], pendingReconnects := 0, connectAttempts := 0 }

/-- A socket whose authenticated identity is a typical Baileys user id. -/
def demoSock : Sock := { user := some "15551234567:1@s.whatsapp.net" }

/-- A state in which the service is initialized, holds `demoSock`, and the
persisted session is connected. -/
def connectedState : ServiceState :=
  { initialState with
      sock := some demoSock,
      isInitialized := true,
      session := { initialSession with isConnected := true, phoneNumber := some "15551234567" } }

/-- A close update with a non-logout status code (`connectionClosed` = 428). -/
def closeUpdate428 : ConnUpdate :=
  { connection := some Conn.close, lastDisconnectStatus := some 428, qr := none }

/-- A close update with the logout status code (401). -/
def closeUpdate401 : ConnUpdate :=
  { connection := some Conn.close,
    lastDisconnectStatus := some DisconnectReason.loggedOut, qr := none }

/-- Inbound fixture items for the batch-isolation claims. -/
def rawA : RawMessage :=
  { hasMessage := true, fromMe := false, remoteJid := some "111@s.whatsapp.net",
    conversation := some "first", extendedText := none, pushName := some "Ann",
    messageTimestamp := 1700000001 }

/-- Second inbound fixture item; its persistence is made to fail in the
`c9` witness batch. -/
def rawB : RawMessage :=
  { hasMessage := true, fromMe := false, remoteJid := some "222@s.whatsapp.net",
    conversation := some "second", extendedText := none, pushName := some "Ben",
    messageTimestamp := 1700000002 }

/-- Third inbound fixture item. -/
def rawC : RawMessage :=
  { hasMessage := true, fromMe := false, remoteJid := some "333@s.whatsapp.net",
    conversation := some "third", extendedText := none, pushName := some "Cal",
    messageTimestamp := 1700000003 }

/-- Failure oracle: persistence of the item at index 1 throws while its
message is written; every other item persists fine. -/
def failAt1 : Nat → Option FailSpot :=
  fun i => if i = 1 then some FailSpot.atMessage else none

/-- The C2 trace, step 1: a non-logout closure arrives while connected, which
schedules the reconnect timer. -/
def c2AfterClose : ServiceState :=
  handleConnectionUpdate 0 [] closeUpdate428 connectedState

/-- The C2 trace, step 2: an explicit `disconnect()` (logout succeeds). -/
def c2AfterDisconnect : ServiceState := (disconnect true c2AfterClose).1

/-- The C2 trace, step 3: the 3-second timer scheduled in step 1 expires. -/
def c2AfterTimer : ServiceState := fireReconnectTimer (some demoSock) c2AfterDisconnect

/-- The result of `initialize()` when session establishment throws. -/
def c1Failed : ServiceState × Option WError := initializeService none initialState

/-! ### Spec-side predicates -/

/-- The Session invariant claimed by the spec: a connected session carries no
QR code. -/
def SessionInv (s : Session) : Prop := s.isConnected = true → s.qrCode = none

/-- A `message` event whose `from` payload equals its `chatId` payload;
trivially satisfied by the other event kinds. -/
def msgEventFromOk : Event → Prop
  | Event.message cid f _ => f = cid
  | _ => True

/-! ### Helper lemmas -/

/-- The QR block never touches the scheduled reconnect timers. -/
theorem qrStep_pendingReconnects (u : ConnUpdate) (st : ServiceState) :
    (qrStep u st).pendingReconnects = st.pendingReconnects := by
  unfold qrStep
  split
  · split <;> rfl
  · rfl

/-- The contact sync only touches the contact collection. -/
theorem loadContacts_pendingReconnects (chats : List GroupChat) (st : ServiceState) :
    (loadContacts chats st).pendingReconnects = st.pendingReconnects := by
  unfold loadContacts
  cases st.sock <;> rfl

/-- The contact sync leaves the persisted session unchanged. -/
theorem loadContacts_session (chats : List GroupChat) (st : ServiceState) :
    (loadContacts chats st).session = st.session := by
  unfold loadContacts
  cases st.sock <;> rfl

/-- The session written on close satisfies the invariant outright. -/
theorem applyPatch_close_inv (s : Session) : SessionInv (applyPatch s closePatch) := by
  intro h
  simp [applyPatch, closePatch] at h

/-- The session written on open carries no QR code. -/
theorem applyPatch_open_qr (s : Session) (phone : Option String) (now : Nat) :
    (applyPatch s (openPatch phone now)).qrCode = none := rfl

/-- The session written on a QR challenge is not connected, so it satisfies
the invariant outright. -/
theorem applyPatch_qr_inv (s : Session) (q : String) :
    SessionInv (applyPatch s (qrPatch q)) := by
  intro h
  simp [applyPatch, qrPatch] at h

/-- The QR block preserves the session invariant. -/
theorem qrStep_sessionInv (u : ConnUpdate) (st : ServiceState)
    (h : SessionInv st.session) : SessionInv (qrStep u st).session := by
  unfold qrStep
  split
  · split
    · exact h
    · exact applyPatch_qr_inv st.session _
  · exact h

/-- Upserting keeps every contact key that was already present. -/
theorem upsertContact_id_mono (c : Contact) (cs : List Contact) (x : String)
    (h : ∃ d ∈ cs, d.id = x) : ∃ d ∈ upsertContact c cs, d.id = x := by
  obtain ⟨d, hd, hx⟩ := h
  unfold upsertContact
  split
  · by_cases he : d.id = c.id
    · refine ⟨c, List.mem_map.mpr ⟨d, hd, ?_⟩, ?_⟩
      · simp [he]
      · rw [← he]; exact hx
    · refine ⟨d, List.mem_map.mpr ⟨d, hd, ?_⟩, hx⟩
      simp [he]
  · exact ⟨d, List.mem_append_left _ hd, hx⟩

/-- The contact just upserted is present under its key. -/
theorem upsertContact_id_self (c : Contact) (cs : List Contact) :
    ∃ d ∈ upsertContact c cs, d.id = c.id := by
  unfold upsertContact
  split
  · rename_i hany
    obtain ⟨d, hd, he⟩ := List.any_eq_true.mp hany
    exact ⟨c, List.mem_map.mpr ⟨d, hd, by simp [he]⟩, rfl⟩
  · exact ⟨c, List.mem_append_right _ (by simp), rfl⟩

/-- One loop iteration only ever appends to the message log. -/
theorem processItem_messages_mono (sockUser : Option String) (spot : Option FailSpot)
    (m : RawMessage) (st : ServiceState) (v : Message) (h : v ∈ st.messages) :
    v ∈ (processItem sockUser spot m st).messages := by
  unfold processItem
  split
  · exact h
  · split
    · exact h
    · split
      · exact h
      · exact h
      · exact List.mem_append_left _ h

/-- One loop iteration keeps every contact key that was already present. -/
theorem processItem_contacts_id_mono (sockUser : Option String) (spot : Option FailSpot)
    (m : RawMessage) (st : ServiceState) (x : String)
    (h : ∃ d ∈ st.contacts, d.id = x) :
    ∃ d ∈ (processItem sockUser spot m st).contacts, d.id = x := by
  unfold processItem
  split
  · exact h
  · split
    · exact h
    · split
      · exact h
      · exact upsertContact_id_mono _ _ _ h
      · exact upsertContact_id_mono _ _ _ h

/-- Any message present after one loop iteration was present before or is the
canonical record of this item. -/
theorem processItem_messages_sub (sockUser : Option String) (spot : Option FailSpot)
    (m : RawMessage) (st : ServiceState) (v : Message)
    (h : v ∈ (processItem sockUser spot m st).messages) :
    v ∈ st.messages ∨ v = ingestMessage sockUser m := by
  unfold processItem at h
  split at h
  · exact Or.inl h
  · split at h
    · exact Or.inl h
    · split at h
      · exact Or.inl h
      · exact Or.inl h
      · rcases List.mem_append.mp h with h1 | h1
        · exact Or.inl h1
        · exact Or.inr (by simpa using h1)

/-- Any event present after one loop iteration was present before or is the
`message` event of this item. -/
theorem processItem_events_sub (sockUser : Option String) (spot : Option FailSpot)
    (m : RawMessage) (st : ServiceState) (e : Event)
    (h : e ∈ (processItem sockUser spot m st).events) :
    e ∈ st.events ∨
      e = Event.message (ingestChatId m) (ingestChatId m) (ingestBody m) := by
  unfold processItem at h
  split at h
  · exact Or.inl h
  · split at h
    · exact Or.inl h
    · split at h
      · exact Or.inl h
      · exact Or.inl h
      · rcases List.mem_append.mp h with h1 | h1
        · exact Or.inl h1
        · exact Or.inr (by simpa using h1)

/-- When persistence does not throw and the item is neither empty nor
self-originated, the iteration performs exactly its three writes. -/
theorem processItem_ok_eq (sockUser : Option String) (m : RawMessage)
    (st : ServiceState) (h1 : m.hasMessage = true) (h2 : m.fromMe = false) :
    processItem sockUser none m st =
      { st with
          contacts := upsertContact (ingestContact m) st.contacts,
          messages := st.messages ++ [ingestMessage sockUser m],
          events := st.events ++
            [Event.message (ingestChatId m) (ingestChatId m) (ingestBody m)] } := by
  unfold processItem
  rw [h1, h2]
  simp

/-- Unfolding equation: the loop on an empty batch. -/
theorem ingestFrom_nil (sockUser : Option String) (oracle : Nat → Option FailSpot)
    (i : Nat) (st : ServiceState) : ingestFrom sockUser oracle i [] st = st := rfl

/-- Unfolding equation: the loop on a non-empty batch. -/
theorem ingestFrom_cons (sockUser : Option String) (oracle : Nat → Option FailSpot)
    (i : Nat) (m : RawMessage) (rest : List RawMessage) (st : ServiceState) :
    ingestFrom sockUser oracle i (m :: rest) st =
      ingestFrom sockUser oracle (i + 1) rest (processItem sockUser (oracle i) m st) := rfl

/-- The loop only ever appends to the message log. -/
theorem ingestFrom_messages_mono (sockUser : Option String)
    (oracle : Nat → Option FailSpot) (msgs : List RawMessage) :
    ∀ (i : Nat) (st : ServiceState) (v : Message), v ∈ st.messages →
      v ∈ (ingestFrom sockUser oracle i msgs st).messages := by
  induction msgs with
  | nil => intro i st v h; exact h
  | cons m rest ih =>
    intro i st v h
    rw [ingestFrom_cons]
    exact ih (i + 1) _ v (processItem_messages_mono _ _ _ _ v h)

/-- The loop keeps every contact key that was already present. -/
theorem ingestFrom_contacts_id_mono (sockUser : Option String)
    (oracle : Nat → Option FailSpot) (msgs : List RawMessage) :
    ∀ (i : Nat) (st : ServiceState) (x : String), (∃ d ∈ st.contacts, d.id = x) →
      ∃ d ∈ (ingestFrom sockUser oracle i msgs st).contacts, d.id = x := by
  induction msgs with
  | nil => intro i st x h; exact h
  | cons m rest ih =>
    intro i st x h
    rw [ingestFrom_cons]
    exact ih (i + 1) _ x (processItem_contacts_id_mono _ _ _ _ x h)

/-- Any item whose persistence does not throw, and which is neither empty nor
self-originated, leaves its message and its contact key in the final state,
whatever happens to the other items of the batch. -/
theorem ingestFrom_ok_item (sockUser : Option String)
    (oracle : Nat → Option FailSpot) (msgs : List RawMessage) :
    ∀ (j i : Nat) (st : ServiceState) (m : RawMessage),
      msgs.get? i = some m → oracle (j + i) = none →
      m.hasMessage = true → m.fromMe = false →
      ingestMessage sockUser m ∈ (ingestFrom sockUser oracle j msgs st).messages ∧
      ∃ d ∈ (ingestFrom sockUser oracle j msgs st).contacts, d.id = ingestChatId m := by
  induction msgs with
  | nil => intro j i st m hm _ _ _; simp at hm
  | cons m0 rest ih =>
    intro j i st m hm ho h1 h2
    cases i with
    | zero =>
      have hm0 : m0 = m := by simpa using hm
      subst hm0
      have hoj : oracle j = none := by
        have : j + 0 = j := Nat.add_zero j
        rw [this] at ho; exact ho
      rw [ingestFrom_cons, hoj, processItem_ok_eq sockUser m0 st h1 h2]
      constructor
      · exact ingestFrom_messages_mono sockUser oracle rest (j + 1) _ _
          (List.mem_append_right _ (by simp))
      · exact ingestFrom_contacts_id_mono sockUser oracle rest (j + 1) _ _
          (upsertContact_id_self (ingestContact m0) st.contacts)
    | succ n =>
      rw [ingestFrom_cons]
      have hm' : rest.get? n = some m := by simpa using hm
      have ho' : oracle ((j + 1) + n) = none := by
        have : (j + 1) + n = j + (n + 1) := by omega
        rw [this]; exact ho
      exact ih (j + 1) n _ m hm' ho' h1 h2

/-- Any message present after a whole batch was present before or records an
inbound item. -/
theorem ingestFrom_new_messages (sockUser : Option String)
    (oracle : Nat → Option FailSpot) (msgs : List RawMessage) :
    ∀ (i : Nat) (st : ServiceState) (v : Message),
      v ∈ (ingestFrom sockUser oracle i msgs st).messages →
      v ∈ st.messages ∨ (v.from_ = v.chatId ∧ v.isFromMe = false) := by
  induction msgs with
  | nil => intro i st v h; exact Or.inl h
  | cons m rest ih =>
    intro i st v h
    rw [ingestFrom_cons] at h
    rcases ih (i + 1) _ v h with h' | h'
    · rcases processItem_messages_sub sockUser (oracle i) m st v h' with h2 | h2
      · exact Or.inl h2
      · subst h2; exact Or.inr ⟨rfl, rfl⟩
    · exact Or.inr h'

/-- Any event present after a whole batch was present before or is a
`message` event whose `from` equals its `chatId`. -/
theorem ingestFrom_new_events (sockUser : Option String)
    (oracle : Nat → Option FailSpot) (msgs : List RawMessage) :
    ∀ (i : Nat) (st : ServiceState) (e : Event),
      e ∈ (ingestFrom sockUser oracle i msgs st).events →
      e ∈ st.events ∨ msgEventFromOk e := by
  induction msgs with
  | nil => intro i st e h; exact Or.inl h
  | cons m rest ih =>
    intro i st e h
    rw [ingestFrom_cons] at h
    rcases ih (i + 1) _ e h with h' | h'
    · rcases processItem_events_sub sockUser (oracle i) m st e h' with h2 | h2
      · exact Or.inl h2
      · subst h2; exact Or.inr rfl
    · exact Or.inr h'

/-! ### Claims -/

/-- Claim C1, counterexample: when session establishment fails, `initialize()`
does rethrow the error, but the manager REMAINS marked initialized (with no
socket), so the subsequent `initialize()` call is a silent no-op instead of a
retry — refuting the claim that the manager is left not marked initialized. -/
theorem c1_failed_init_leaves_marked :
    c1Failed.2 = some WError.sessionEstablishmentFailed ∧
    c1Failed.1.isInitialized = true ∧
    c1Failed.1.sock = none ∧
    initializeService (some demoSock) c1Failed.1 = (c1Failed.1, none) :=
  ⟨rfl, rfl, rfl, rfl⟩

/-- Claim C1, amended: if the connection-establishment step invoked by
`initialize()` fails, the error is surfaced to the caller, but the manager is
left marked initialized (its socket unchanged), so every subsequent
`initialize()` call is a no-op rather than a retry. -/
theorem c1_amended_failure_surfaced_but_marked (st : ServiceState)
    (h : st.isInitialized = false) :
    (initializeService none st).2 = some WError.sessionEstablishmentFailed ∧
    (initializeService none st).1.isInitialized = true ∧
    (initializeService none st).1.sock = st.sock ∧
    (∀ r, initializeService r (initializeService none st).1 =
      ((initializeService none st).1, none)) := by
  simp [initializeService, connectToWhatsApp, h]

/-- Witness for `c1_amended_failure_surfaced_but_marked` at the pristine state. -/
theorem c1_amended_witness :
    (initializeService none initialState).2 = some WError.sessionEstablishmentFailed ∧
    (initializeService none initialState).1.isInitialized = true ∧
    (initializeService none initialState).1.sock = initialState.sock ∧
    (∀ r, initializeService r (initializeService none initialState).1 =
      ((initializeService none initialState).1, none)) :=
  c1_amended_failure_surfaced_but_marked initialState rfl

/-- Claim C2, code-bug evaluation: the reconnect timer handle is never stored
and `disconnect()` never clears it.  Trace: a non-logout closure (status 428)
schedules exactly one reconnect timer; the explicit `disconnect()` leaves it
scheduled; when it expires it runs a fresh connection attempt and installs a
new socket — a reconnect fires after the explicit disconnect, contradicting
the claim that the timer is cancelled. -/
theorem c2_reconnect_fires_after_disconnect :
    c2AfterClose.pendingReconnects = 1 ∧
    c2AfterDisconnect.pendingReconnects = 1 ∧
    c2AfterDisconnect.sock = none ∧
    c2AfterDisconnect.isInitialized = false ∧
    c2AfterTimer.connectAttempts = c2AfterDisconnect.connectAttempts + 1 ∧
    c2AfterTimer.sock = some demoSock :=
  ⟨rfl, rfl, rfl, rfl, rfl, rfl⟩

/-- Claim C3, counterexample: with a live socket whose logout throws,
`disconnect()` propagates the error and leaves the state completely
unchanged — the session is still persisted as connected and the manager is
still marked initialized, refuting both halves of the claim. -/
theorem c3_logout_failure_counterexample :
    (disconnect false connectedState).2 = some WError.logoutFailed ∧
    (disconnect false connectedState).1 = connectedState ∧
    connectedState.session.isConnected = true ∧
    connectedState.isInitialized = true :=
  ⟨rfl, rfl, rfl, rfl⟩

/-- Claim C3, amended: `disconnect()` persists the Session as disconnected
and unmarks initialization only when the logout call succeeds; when logout
fails, the failure is logged and PROPAGATED to the caller, and neither the
Session write nor the uninitialization happens (the state is unchanged). -/
theorem c3_amended_disconnect (st : ServiceState) (h : st.sock.isSome = true) :
    disconnect false st = (st, some WError.logoutFailed) ∧
    (disconnect true st).2 = none ∧
    (disconnect true st).1.session.isConnected = false ∧
    (disconnect true st).1.session.qrCode = none ∧
    (disconnect true st).1.isInitialized = false ∧
    (disconnect true st).1.sock = none := by
  cases hs : st.sock with
  | none => rw [hs] at h; simp at h
  | some s => simp [disconnect, hs, applyPatch, closePatch]

/-- Witness for `c3_amended_disconnect` at the connected fixture state. -/
theorem c3_amended_witness :
    disconnect false connectedState = (connectedState, some WError.logoutFailed) ∧
    (disconnect true connectedState).2 = none ∧
    (disconnect true connectedState).1.session.isConnected = false ∧
    (disconnect true connectedState).1.session.qrCode = none ∧
    (disconnect true connectedState).1.isInitialized = false ∧
    (disconnect true connectedState).1.sock = none :=
  c3_amended_disconnect connectedState rfl

/-- Claim C4, counterexample: from a connected state, a send whose transport
call succeeds (the attempt is recorded) but whose Message persistence throws
makes `sendMessage` raise a wrapped send failure — it does NOT return
success to the caller, and no Message is persisted. -/
theorem c4_persist_failure_counterexample :
    (sendMessage true false 1000 "1234567890" "hi" connectedState).2 =
      Except.error WError.sendFailed ∧
    (sendMessage true false 1000 "1234567890" "hi" connectedState).1.transportAttempts =
      [("1234567890@s.whatsapp.net", "hi")] ∧
    (sendMessage true false 1000 "1234567890" "hi" connectedState).1.messages = [] :=
  ⟨rfl, rfl, rfl⟩

/-- Claim C4, amended: when the transport send succeeds but the subsequent
Message-persistence write fails, `sendMessage` logs the error and rethrows it
wrapped as a send failure — the caller sees an error, not success, although
the transport send already happened and no Message record is appended. -/
theorem c4_amended_persist_failure_raises (now : Nat) (to_ message : String)
    (st : ServiceState) (s : Sock) (hs : st.sock = some s)
    (hc : st.session.isConnected = true) :
    (sendMessage true false now to_ message st).2 = Except.error WError.sendFailed ∧
    (sendMessage true false now to_ message st).1.messages = st.messages ∧
    (sendMessage true false now to_ message st).1.transportAttempts =
      st.transportAttempts ++ [(normalizeChatId to_, message)] := by
  by_cases hct : (st.contacts.any fun c => c.id == normalizeChatId to_) = true
  · simp [sendMessage, hs, hc, hct]
  · simp [sendMessage, hs, hc, hct]

/-- Witness for `c4_amended_persist_failure_raises` at the connected fixture. -/
theorem c4_amended_witness :
    (sendMessage true false 1000 "1234567890" "hi" connectedState).2 =
      Except.error WError.sendFailed ∧
    (sendMessage true false 1000 "1234567890" "hi" connectedState).1.messages =
      connectedState.messages ∧
    (sendMessage true false 1000 "1234567890" "hi" connectedState).1.transportAttempts =
      connectedState.transportAttempts ++ [(normalizeChatId "1234567890", "hi")] :=
  c4_amended_persist_failure_raises 1000 "1234567890" "hi" connectedState demoSock rfl rfl

/-- Claim C5: a send made with no socket, or with the persisted session not
connected, throws (`not initialized` / `not connected`, the spec's
`NotConnected` class) and leaves the whole state untouched: no transport
attempt, no Contact write, no Message write. -/
theorem c5_send_not_connected (transportOk persistOk : Bool) (now : Nat)
    (to_ message : String) (st : ServiceState)
    (h : st.sock = none ∨ st.session.isConnected = false) :
    (sendMessage transportOk persistOk now to_ message st).1 = st ∧
    ((sendMessage transportOk persistOk now to_ message st).2 =
        Except.error WError.notInitialized ∨
     (sendMessage transportOk persistOk now to_ message st).2 =
        Except.error WError.notConnected) := by
  rcases h with h | h
  · simp [sendMessage, h]
  · cases hs : st.sock with
    | none => simp [sendMessage, hs]
    | some s => simp [sendMessage, hs, h]

/-- Witness for `c5_send_not_connected` at the pristine state (no socket). -/
theorem c5_witness :
    (sendMessage true true 7 "1234567890" "hi" initialState).1 = initialState ∧
    ((sendMessage true true 7 "1234567890" "hi" initialState).2 =
        Except.error WError.notInitialized ∨
     (sendMessage true true 7 "1234567890" "hi" initialState).2 =
        Except.error WError.notConnected) :=
  c5_send_not_connected true true 7 "1234567890" "hi" initialState (Or.inl rfl)

/-- Claim C6: a `connection.update` schedules exactly one reconnect timer
when it closes the connection with a non-logout status, and zero timers in
every other case — in particular zero after a logout closure. -/
theorem c6_reconnect_scheduling (now : Nat) (chats : List GroupChat)
    (u : ConnUpdate) (st : ServiceState) :
    (handleConnectionUpdate now chats u st).pendingReconnects =
      st.pendingReconnects +
        (if u.connection = some Conn.close ∧
            u.lastDisconnectStatus ≠ some DisconnectReason.loggedOut
         then 1 else 0) := by
  unfold handleConnectionUpdate connStep
  cases hcn : u.connection with
  | none => simp [qrStep_pendingReconnects u st]
  | some c =>
    cases c with
    | close =>
      by_cases hd : u.lastDisconnectStatus = some DisconnectReason.loggedOut
      · simp [hd, qrStep_pendingReconnects u st]
      · simp [hd, qrStep_pendingReconnects u st]
    | opened =>
      simp [loadContacts_pendingReconnects, qrStep_pendingReconnects u st]
    | connecting => simp [qrStep_pendingReconnects u st]

/-- Claim C7: every state transition that writes the Session record (QR
challenge, open, close inside `handleConnectionUpdate`, and `disconnect()`)
preserves the invariant `isConnected = true → qrCode = none`; in particular
an `open` update always leaves the persisted `qrCode` equal to none. -/
theorem c7_session_invariant (now : Nat) (chats : List GroupChat)
    (u : ConnUpdate) (logoutOk : Bool) (st : ServiceState)
    (h : SessionInv st.session) :
    SessionInv (handleConnectionUpdate now chats u st).session ∧
    SessionInv ((disconnect logoutOk st).1).session ∧
    (u.connection = some Conn.opened →
      (handleConnectionUpdate now chats u st).session.qrCode = none) := by
  refine ⟨?_, ?_, ?_⟩
  · unfold handleConnectionUpdate connStep
    have hq := qrStep_sessionInv u st h
    split
    · split
      · exact applyPatch_close_inv _
      · exact applyPatch_close_inv _
    · rw [loadContacts_session]
      intro _
      exact applyPatch_open_qr _ _ _
    · exact hq
  · unfold disconnect
    split
    · split
      · exact applyPatch_close_inv _
      · exact h
    · exact applyPatch_close_inv _
  · intro hop
    unfold handleConnectionUpdate connStep
    simp only [hop, loadContacts_session]
    exact applyPatch_open_qr _ _ _

/-- Witness for `c7_session_invariant` at the pristine state and a close update. -/
theorem c7_witness :
    SessionInv (handleConnectionUpdate 0 [] closeUpdate428 initialState).session ∧
    SessionInv ((disconnect true initialState).1).session ∧
    (closeUpdate428.connection = some Conn.opened →
      (handleConnectionUpdate 0 [] closeUpdate428 initialState).session.qrCode = none) :=
  c7_session_invariant 0 [] closeUpdate428 true initialState
    (fun h => absurd h (by decide))

/-- Claim C8: `sendMessage` records its transport attempt under the
normalized chat identifier: a destination already containing `"@"` is used
unchanged, any other destination gets the default one-to-one suffix
`"@s.whatsapp.net"` appended; concretely, `"1234567890"` normalizes to
`"1234567890@s.whatsapp.net"` and `"1234567890@g.us"` stays unchanged. -/
theorem c8_destination_normalization (now : Nat) (to_ message : String)
    (st : ServiceState) (s : Sock) (hs : st.sock = some s)
    (hc : st.session.isConnected = true) :
    (sendMessage true true now to_ message st).1.transportAttempts =
      st.transportAttempts ++ [(normalizeChatId to_, message)] ∧
    (jsIncludes to_ "@" = false →
      normalizeChatId to_ = to_ ++ "@s.whatsapp.net") ∧
    (jsIncludes to_ "@" = true → normalizeChatId to_ = to_) ∧
    normalizeChatId "1234567890" = "1234567890@s.whatsapp.net" ∧
    normalizeChatId "1234567890@g.us" = "1234567890@g.us" := by
  refine ⟨?_, ?_, ?_, by rfl, by rfl⟩
  · by_cases hct : (st.contacts.any fun c => c.id == normalizeChatId to_) = true
    · simp [sendMessage, hs, hc, hct]
    · simp [sendMessage, hs, hc, hct]
  · intro hni; simp [normalizeChatId, hni]
  · intro hni; simp [normalizeChatId, hni]

/-- Witness for `c8_destination_normalization` at the connected fixture. -/
theorem c8_witness :
    (sendMessage true true 5 "1234567890" "hello" connectedState).1.transportAttempts =
      connectedState.transportAttempts ++ [(normalizeChatId "1234567890", "hello")] ∧
    (jsIncludes "1234567890" "@" = false →
      normalizeChatId "1234567890" = "1234567890" ++ "@s.whatsapp.net") ∧
    (jsIncludes "1234567890" "@" = true →
      normalizeChatId "1234567890" = "1234567890") ∧
    normalizeChatId "1234567890" = "1234567890@s.whatsapp.net" ∧
    normalizeChatId "1234567890@g.us" = "1234567890@g.us" :=
  c8_destination_normalization 5 "1234567890" "hello" connectedState demoSock rfl rfl

/-- Claim C9: in any inbound batch, an item whose persistence does not throw
(and which is neither empty nor self-originated) still has its Message
appended and its Contact key present after the whole batch, regardless of
failures injected into any other items — one bad item never aborts the rest. -/
theorem c9_batch_isolation (sockUser : Option String)
    (oracle : Nat → Option FailSpot) (msgs : List RawMessage)
    (st : ServiceState) (i : Nat) (m : RawMessage)
    (hm : msgs.get? i = some m) (ho : oracle i = none)
    (h1 : m.hasMessage = true) (h2 : m.fromMe = false) :
    ingestMessage sockUser m ∈ (handleIncomingMessages sockUser oracle msgs st).messages ∧
    ∃ d ∈ (handleIncomingMessages sockUser oracle msgs st).contacts,
      d.id = ingestChatId m :=
  ingestFrom_ok_item sockUser oracle msgs 0 i st m hm
    (by rw [Nat.zero_add]; exact ho) h1 h2

/-- Witness for `c9_batch_isolation`: a batch of three items where the second
item's persistence throws still yields the third item's records. -/
theorem c9_witness :
    ingestMessage none rawC ∈
      (handleIncomingMessages none failAt1 [rawA, rawB, rawC] initialState).messages ∧
    ∃ d ∈ (handleIncomingMessages none failAt1 [rawA, rawB, rawC] initialState).contacts,
      d.id = ingestChatId rawC :=
  c9_batch_isolation none failAt1 [rawA, rawB, rawC] initialState 2 rawC rfl rfl rfl rfl

/-- Claim C10: every Message the inbound ingest pipeline adds has its `from`
field equal to its `chatId` field and `isFromMe = false`, and every event the
pipeline emits is a `message` event whose `from` payload equals its `chatId`
payload. -/
theorem c10_ingest_from_field (sockUser : Option String)
    (oracle : Nat → Option FailSpot) (msgs : List RawMessage) (st : ServiceState) :
    (∀ v, v ∈ (handleIncomingMessages sockUser oracle msgs st).messages →
      v ∈ st.messages ∨ (v.from_ = v.chatId ∧ v.isFromMe = false)) ∧
    (∀ e, e ∈ (handleIncomingMessages sockUser oracle msgs st).events →
      e ∈ st.events ∨ msgEventFromOk e) :=
  ⟨ingestFrom_new_messages sockUser oracle msgs 0 st,
   ingestFrom_new_events sockUser oracle msgs 0 st⟩

/-- Witness for `c10_ingest_from_field`: the record ingested for `rawA` from
the pristine state carries `from = chatId` and `isFromMe = false`. -/
theorem c10_witness :
    ingestMessage none rawA ∈ initialState.messages ∨
    ((ingestMessage none rawA).from_ = (ingestMessage none rawA).chatId ∧
     (ingestMessage none rawA).isFromMe = false) :=
  (c10_ingest_from_field none (fun _ => none) [rawA] initialState).1
    (ingestMessage none rawA) (by decide)
